import Mathlib

/-!
Verification development for the DropfleetTTS card-update scripts.

The definitions below are a shallow embedding of the Python sources
`tts_Update_Script.py`, `tts_Update_Script_V2.py` and
`tts_shipcard_parser.py`.  Strings are modelled over ASCII: the regular
expression class `\s`, `str.strip()` and `str.lower()` are modelled by
their ASCII behaviour, which is exact for the script bodies the tools
process.  The regular expressions used by the scripts are deterministic
(no alternative admits more than one successful parse at a given start
position), so each one is embedded as an explicit matcher over
`List Char`; `re.search` is a first-match scan over start positions and
`re.sub` is a non-overlapping left-to-right replacement scan.
-/

/-- ASCII model of the regex class `\s` and of Python whitespace. -/
def pySpace (c : Char) : Bool :=
  c = ' ' || c = '\t' || c = '\n' || c = '\r' || c = '\x0b' || c = '\x0c'

/-- Characters matched by the regex class `['"]` in the script patterns. -/
def isQuoteCh (c : Char) : Bool := c = '\'' || c = '"'

/-- Python `str.strip()` (ASCII whitespace). -/
def pyStrip (s : String) : String :=
  String.mk (((s.toList.dropWhile pySpace).reverse.dropWhile pySpace).reverse)

/-- Python `str.lower()` restricted to ASCII. -/
def asciiLower (s : String) : String := String.mk (s.toList.map Char.toLower)

/-- Python's substring test `needle in hay` on strings, over char lists. -/
def containsSub (needle : List Char) : List Char → Bool
  | [] => needle.isPrefixOf ([] : List Char)
  | c :: rest => needle.isPrefixOf (c :: rest) || containsSub needle rest

/-- Match a literal character sequence at the head of the input,
returning the remainder. -/
def stripLit : List Char → List Char → Option (List Char)
  | [], cs => some cs
  | _ :: _, [] => none
  | l :: ls, c :: cs => if c = l then stripLit ls cs else none

/-- Regex `\s*`: drop any leading whitespace. -/
def wsMany (cs : List Char) : List Char := cs.dropWhile pySpace

/-- Regex `\s+`: require at least one whitespace char, drop the run. -/
def wsSome : List Char → Option (List Char)
  | [] => none
  | c :: rest => if pySpace c then some (rest.dropWhile pySpace) else none

/-- Value part `([0-9.]+)` of the numeric-parameter pattern: the greedy
maximal run of digits and dots, which must be non-empty. -/
def matchNumber (cs : List Char) : Option String :=
  let run := cs.takeWhile (fun c => c.isDigit || c = '.')
  if run.isEmpty then none else some (String.mk run)

/-- Regex fragment `https?://[^'"]+`: returns the matched characters and
the remainder (positioned at the would-be closing quote). -/
def urlTail (cs : List Char) : Option (List Char × List Char) :=
  match stripLit "http".toList cs with
  | none => none
  | some r1 =>
    let sr : List Char × List Char :=
      match r1 with
      | 's' :: t => (['s'], t)
      | _ => ([], r1)
    match stripLit "://".toList sr.2 with
    | none => none
    | some r2 =>
      let body := r2.takeWhile (fun c => !(isQuoteCh c))
      if body.isEmpty then none
      else some ("http".toList ++ sr.1 ++ "://".toList ++ body, r2.drop body.length)

/-- Value part `['"](https?://[^'"]+)['"]` of the URL-parameter pattern. -/
def matchUrl (cs : List Char) : Option String :=
  match cs with
  | [] => none
  | q :: rest =>
    if isQuoteCh q then
      match urlTail rest with
      | some (grp, after) =>
        match after with
        | q2 :: _ => if isQuoteCh q2 then some (String.mk grp) else none
        | [] => none
      | none => none
    else none

/-- Value part `['"](.*?)['"]` of the name pattern: lazy body up to the
first quote, which must contain no newline. -/
def matchName (cs : List Char) : Option String :=
  match cs with
  | [] => none
  | q :: rest =>
    if isQuoteCh q then
      let body := rest.takeWhile (fun c => !(isQuoteCh c))
      if body.contains '\n' then none
      else
        match rest.drop body.length with
        | q2 :: _ => if isQuoteCh q2 then some (String.mk body) else none
        | [] => none
    else none

/-- First alternative `local\s+P\s*=\s*` of the assignment pattern,
followed by the value matcher `v`. -/
def assignAlt1 (p : List Char) (v : List Char → Option String) (cs : List Char) :
    Option String := do
  let r1 ← stripLit "local".toList cs
  let r2 ← wsSome r1
  let r3 ← stripLit p r2
  let r4 ← stripLit ['='] (wsMany r3)
  v (wsMany r4)

/-- Second alternative `P\s*=\s*` of the assignment pattern, followed by
the value matcher `v`. -/
def assignAlt2 (p : List Char) (v : List Char → Option String) (cs : List Char) :
    Option String := do
  let r1 ← stripLit p cs
  let r2 ← stripLit ['='] (wsMany r1)
  v (wsMany r2)

/-- Try the full pattern `(?:local\s+P\s*=\s*|P\s*=\s*)VALUE` anchored at
the start of `cs`, alternatives in regex order. -/
def tryAssignAt (p : List Char) (v : List Char → Option String) (cs : List Char) :
    Option String :=
  match assignAlt1 p v cs with
  | some g => some g
  | none => assignAlt2 p v cs

/-- Python `re.search` of the assignment pattern: scan start positions
left to right, first hit wins, returning capture group 1. -/
def searchAssign (p : List Char) (v : List Char → Option String) :
    List Char → Option String
  | [] => tryAssignAt p v []
  | c :: rest =>
    match tryAssignAt p v (c :: rest) with
    | some g => some g
    | none => searchAssign p v rest

/-- Heterogeneous Python return value of `extract_parameter`: the numeric
default is the integer `0`, every found value is a string. -/
inductive PyVal : Type where
  | int (n : Int) : PyVal
  | str (s : String) : PyVal
deriving DecidableEq, Repr

/-- Parameter classes of `extract_parameter` (numeric, URL, name), as
selected by the `if/elif` chain on the parameter name. -/
inductive ParamKind : Type where
  | num : ParamKind
  | url : ParamKind
  | nameKind : ParamKind
deriving DecidableEq, Repr

/-- Which pattern `extract_parameter` builds for a given parameter name
(`none` for names the scripts never pass, where the Python code would
raise `NameError`). -/
def paramKind (p : String) : Option ParamKind :=
  if p = "baseScale" || p = "health" || p = "sig" || p = "points" then some ParamKind.num
  else if p = "modelImage" || p = "cardFrontImage" || p = "cardImage" then some ParamKind.url
  else if p = "name" then some ParamKind.nameKind
  else none

/-- Embedding of `extract_parameter(content, param_name)` from
`tts_Update_Script.py` lines 69-92 (identical in the parser script). -/
def extract_parameter (content : String) (param_name : String) : PyVal :=
  match paramKind param_name with
  | some ParamKind.num =>
    match searchAssign param_name.toList matchNumber content.toList with
    | some g => PyVal.str (pyStrip g)
    | none => PyVal.int 0
  | some ParamKind.url =>
    match searchAssign param_name.toList matchUrl content.toList with
    | some g => PyVal.str (pyStrip g)
    | none => PyVal.str "Unknown"
  | some ParamKind.nameKind =>
    match searchAssign param_name.toList matchName content.toList with
    | some g => PyVal.str (pyStrip g)
    | none => PyVal.str "Unknown"
  | none => PyVal.str "Unknown"

/-- The `VALID_FACTIONS` list of `tts_Update_Script.py`. -/
def VALID_FACTIONS : List String :=
  ["UCM", "PHR", "Shaltari", "Scourge", "Resistance", "Bioficers", "Neutral"]

/-- Body of `determine_faction_from_container` after the label has been
lowered: first faction whose lowered name occurs in the label, then the
fixed chain of abbreviation tests, else `"Neutral"`. -/
def faction_label_scan (low : String) : String :=
  match VALID_FACTIONS.find? (fun f => containsSub (asciiLower f).toList low.toList) with
  | some f => f
  | none =>
    if containsSub "ucm".toList low.toList then "UCM"
    else if containsSub "phr".toList low.toList then "PHR"
    else if containsSub "shaltari".toList low.toList then "Shaltari"
    else if containsSub "scourge".toList low.toList then "Scourge"
    else if containsSub "resistance".toList low.toList then "Resistance"
    else if containsSub "bio".toList low.toList then "Bioficers"
    else "Neutral"

/-- Embedding of `determine_faction_from_container(container_name)` from
`tts_Update_Script.py` lines 94-120. -/
def determine_faction_from_container (container_name : String) : String :=
  faction_label_scan (asciiLower container_name)

/-- Ship-script indicators of `is_ship_card_script`. -/
def SHIP_INDICATORS : List String :=
  ["rebuildUI()", "createModel", "cardFrontImage", "modelImage", "baseScale", "onSave()"]

/-- Embedding of `is_ship_card_script(content)`. -/
def is_ship_card_script (content : String) : Bool :=
  decide (3 ≤ (SHIP_INDICATORS.countP (fun i => containsSub i.toList content.toList)))

/-- Upgrade-script indicators of `is_upgrade_card_script`. -/
def UPGRADE_INDICATORS : List String :=
  ["rebuildUI()", "cardImage", "onLoad", "points", "onSave()"]

/-- Embedding of `is_upgrade_card_script(content)`. -/
def is_upgrade_card_script (content : String) : Bool :=
  let hits := UPGRADE_INDICATORS.countP (fun i => containsSub i.toList content.toList)
  let has_card_image :=
    containsSub "cardImage".toList content.toList || containsSub "CardImage".toList content.toList
  let no_model_image :=
    !(containsSub "modelImage".toList content.toList) &&
      !(containsSub "ModelImage".toList content.toList)
  decide (3 ≤ hits) && has_card_image && no_model_image

/-- The `IGNORED_CONTAINERS` list (same in all script variants). -/
def IGNORED_CONTAINERS : List String := ["Old 2.0 Content"]

/-- Embedding of `should_skip_container(container_path)` from
`tts_Update_Script.py` lines 467-474: exact membership of a path entry
in the ignored list. -/
def should_skip_container (container_path : List String) : Bool :=
  container_path.any (fun container_name => IGNORED_CONTAINERS.contains container_name)

namespace V2

/-- Embedding of `should_skip(path_list)` from `tts_Update_Script_V2.py`
lines 85-86: an ignored name occurring as a substring of a path entry. -/
def should_skip (path_list : List String) : Bool :=
  path_list.any (fun path => IGNORED_CONTAINERS.any (fun ign => containsSub ign.toList path.toList))

end V2


/-- Characters replaced by `_` in `sanitize_filename`. -/
def INVALID_FILENAME_CHARS : List Char := ['<', '>', ':', '"', '/', '\\', '|', '?', '*']

/-- Embedding of `sanitize_filename(name)`. -/
def sanitize_filename (name : String) : String :=
  pyStrip (String.mk (name.toList.map
    (fun c => if INVALID_FILENAME_CHARS.contains c then '_' else c)))

/-- Upper-case hexadecimal digit, as produced by `urllib.parse.quote`. -/
def hexDigitCh (n : Nat) : Char :=
  if n < 10 then Char.ofNat (48 + n) else Char.ofNat (55 + n)

/-- Percent-encoding of one byte. -/
def percentByte (b : Nat) : List Char := ['%', hexDigitCh (b / 16), hexDigitCh (b % 16)]

/-- UTF-8 byte values of a character. -/
def utf8Nat (c : Char) : List Nat :=
  let n := c.toNat
  if n < 128 then [n]
  else if n < 2048 then [192 + n / 64, 128 + n % 64]
  else if n < 65536 then [224 + n / 4096, 128 + (n / 64) % 64, 128 + n % 64]
  else [240 + n / 262144, 128 + (n / 4096) % 64, 128 + (n / 64) % 64, 128 + n % 64]

/-- Characters `urllib.parse.quote` leaves unencoded with the default
`safe='/'`: ASCII alphanumerics, `_.-~` and `/`. -/
def quoteSafeCh (c : Char) : Bool :=
  (c.isAlpha && c.toNat < 128) || c.isDigit || c = '_' || c = '.' || c = '-' || c = '~' || c = '/'

/-- Embedding of `urllib.parse.quote(s)` with the default safe set. -/
def pyQuote (s : String) : String :=
  String.mk ((s.toList.map
    (fun c => if quoteSafeCh c then [c] else ((utf8Nat c).map percentByte).flatten)).flatten)

/-- `GITHUB_REPO` constant of `tts_Update_Script.py`. -/
def GITHUB_REPO : String := "TemporalDistoriton/DropfleetTTS"

/-- `GITHUB_RAW_BASE_URL` at its configured initial value. -/
def GITHUB_RAW_BASE_URL : String := "https://github.com/" ++ GITHUB_REPO ++ "/blob/main"

/-- `USE_RAW_TRUE` at its configured initial value. -/
def USE_RAW_TRUE : Bool := true

/-- Embedding of `get_github_path(faction, item_name, image_type, is_upgrade)`.
A `none` image type renders as Python's `"None"` inside the f-string. -/
def get_github_path (faction item_name : String) (image_type : Option String)
    (is_upgrade : Bool) : String :=
  let sanitized_name := sanitize_filename item_name
  if is_upgrade then faction ++ "/Upgrades/" ++ sanitized_name ++ ".png"
  else
    faction ++ "/" ++ sanitized_name ++ "_"
      ++ (match image_type with | some t => t | none => "None") ++ ".png"

/-- Embedding of `get_github_image_url(faction, item_name, image_type, is_upgrade)`. -/
def get_github_image_url (faction item_name : String) (image_type : Option String)
    (is_upgrade : Bool) : String :=
  let sanitized_name := sanitize_filename item_name
  let encoded_path :=
    if is_upgrade then faction ++ "/Upgrades/" ++ pyQuote (sanitized_name ++ ".png")
    else
      faction ++ "/"
        ++ pyQuote (sanitized_name ++ "_"
            ++ (match image_type with | some t => t | none => "None") ++ ".png")
  let url := GITHUB_RAW_BASE_URL ++ "/" ++ encoded_path
  if USE_RAW_TRUE then url ++ "?raw=true" else url

/-- Embedding of `check_image_exists`: the network probes are modelled by
an oracle `ex` giving the repository's contents at a given path (the
interface of the asset-lookup collaborator).  Returns the existence
answer paired with the probed path, like the Python function. -/
def check_image_exists (ex : String → Bool) (faction item_name : String)
    (image_type : Option String) (is_upgrade : Bool) : Bool × String :=
  let path := get_github_path faction item_name image_type is_upgrade
  (ex path, path)

/-- One step result of a `re.sub`-style matcher anchored at a position:
capture group 1 (prefix including the opening quote), capture group 2
(the closing quote character), and the remainder after the match. -/
def SubMatch : Type := List Char × Char × List Char

/-- Tail of the URL-rewrite patterns after the assignment prefix:
`['"])https?://[^'"]+(['"])`.  `orig` is the whole candidate so the
consumed prefix (group 1) can be recovered. -/
def urlAssignTail (orig r : List Char) : Option SubMatch :=
  match r with
  | [] => none
  | q1 :: r1 =>
    if isQuoteCh q1 then
      match urlTail r1 with
      | some (_, after) =>
        match after with
        | q2 :: rest =>
          if isQuoteCh q2 then some (orig.take (orig.length - r1.length), q2, rest) else none
        | [] => none
      | none => none
    else none

/-- Matcher for `((?:local\s+P\s*=\s*|P\s*=\s*)['"])https?://[^'"]+(['"])`
anchored at the start of `cs` (the URL-rewrite patterns of
`update_ship_card_script` / `update_upgrade_card_script`). -/
def matchUrlAssignSub (p : List Char) (cs : List Char) : Option SubMatch :=
  let alt1 : Option SubMatch := do
    let r1 ← stripLit "local".toList cs
    let r2 ← wsSome r1
    let r3 ← stripLit p r2
    let r4 ← stripLit ['='] (wsMany r3)
    urlAssignTail cs (wsMany r4)
  match alt1 with
  | some x => some x
  | none => do
    let r1 ← stripLit p cs
    let r2 ← stripLit ['='] (wsMany r1)
    urlAssignTail cs (wsMany r2)

/-- Regex fragment `.+?(['"])`: lazy non-empty body (no newline, no
quote) up to the first quote.  Returns (body, closing quote, rest). -/
def lazyBody1ThenQuote (cs : List Char) : Option (List Char × Char × List Char) :=
  match cs with
  | [] => none
  | c :: rest =>
    if c = '\n' then none
    else
      let more := rest.takeWhile (fun x => !(isQuoteCh x))
      if more.contains '\n' then none
      else
        match rest.drop more.length with
        | q :: rest2 => some (c :: more, q, rest2)
        | [] => none

/-- Matcher for the first faction pattern
`(local\s+faction\s*=\s*['"]).+?(['"])` anchored at `cs`. -/
def matchFaction1 (cs : List Char) : Option SubMatch := do
  let r1 ← stripLit "local".toList cs
  let r2 ← wsSome r1
  let r3 ← stripLit "faction".toList r2
  let r4 ← stripLit ['='] (wsMany r3)
  let r5 := wsMany r4
  match r5 with
  | [] => none
  | q1 :: r6 =>
    if isQuoteCh q1 then
      match lazyBody1ThenQuote r6 with
      | some (_, q2, rest) => some (cs.take (cs.length - r6.length), q2, rest)
      | none => none
    else none

/-- Matcher for the second faction pattern
`(faction\s*=\s*data\.faction\s+or\s+['"]).+?(['"])` anchored at `cs`. -/
def matchFaction2 (cs : List Char) : Option SubMatch := do
  let r1 ← stripLit "faction".toList cs
  let r2 ← stripLit ['='] (wsMany r1)
  let r3 ← stripLit "data.faction".toList (wsMany r2)
  let r4 ← wsSome r3
  let r5 ← stripLit "or".toList r4
  let r6 ← wsSome r5
  match r6 with
  | [] => none
  | q1 :: r7 =>
    if isQuoteCh q1 then
      match lazyBody1ThenQuote r7 with
      | some (_, q2, rest) => some (cs.take (cs.length - r7.length), q2, rest)
      | none => none
    else none

/-- Fuelled core of `re.sub`: scan left to right, replace each match by
group 1, the replacement text and group 2, and continue after it. -/
def subAllAux (m : List Char → Option SubMatch) (repl : List Char) :
    Nat → List Char → List Char
  | 0, cs => cs
  | _ + 1, [] => []
  | n + 1, c :: rest =>
    match m (c :: rest) with
    | some (g1, q2, after) => g1 ++ repl ++ [q2] ++ subAllAux m repl n after
    | none => c :: subAllAux m repl n rest

/-- Python `re.sub(pattern, r"\1" + repl + r"\2", cs)` for the rewrite
patterns (every matcher here consumes at least one character). -/
def reSub (m : List Char → Option SubMatch) (repl : List Char) (cs : List Char) :
    List Char :=
  subAllAux m repl cs.length cs

/-- Python `re.search(pattern, cs) is not None` for a rewrite matcher. -/
def reSearchHit (m : List Char → Option SubMatch) : List Char → Bool
  | [] => (m []).isSome
  | c :: rest => (m (c :: rest)).isSome || reSearchHit m rest

/-- The faction-rewrite loop of `update_ship_card_script` lines 409-420:
first pattern that has a search hit is substituted, then the loop breaks. -/
def applyFactionSub (faction : String) (cs : List Char) : List Char :=
  if reSearchHit matchFaction1 cs then reSub matchFaction1 faction.toList cs
  else if reSearchHit matchFaction2 cs then reSub matchFaction2 faction.toList cs
  else cs

/-- Result record of `update_ship_card_script` (modified script, new
model-image URL if updated, new card-front URL if updated, and the error
lines it appended to the global `error_log`). -/
structure ShipUpdateResult : Type where
  script : String
  new_model_url : Option String
  new_card_front_url : Option String
  errors : List String
deriving DecidableEq, Repr

/-- Embedding of `update_ship_card_script(lua_script, determined_faction,
ship_name, object_name)` from `tts_Update_Script.py` lines 356-422. -/
def update_ship_card_script (ex : String → Bool)
    (lua_script determined_faction ship_name _object_name : String) : ShipUpdateResult :=
  let cf := check_image_exists ex determined_faction ship_name (some "CardFrontImage") false
  let m := check_image_exists ex determined_faction ship_name (some "ModelImage") false
  let errs1 : List String :=
    if cf.1 then []
    else ["ERROR: CardFrontImage not found for " ++ ship_name ++ " in "
            ++ determined_faction ++ " faction (tried path: " ++ cf.2 ++ ")"]
  let errs2 : List String :=
    errs1 ++
      (if m.1 then []
       else ["ERROR: ModelImage not found for " ++ ship_name ++ " in "
              ++ determined_faction ++ " faction (tried path: " ++ m.2 ++ ")"])
  if !cf.1 && !m.1 then
    { script := lua_script, new_model_url := none, new_card_front_url := none,
      errors := errs2 ++ ["SKIPPING: No images found for " ++ ship_name ++ " in "
                            ++ determined_faction ++ " faction"] }
  else
    let card_front_url := get_github_image_url determined_faction ship_name (some "CardFrontImage") false
    let model_url := get_github_image_url determined_faction ship_name (some "ModelImage") false
    let s1 :=
      if cf.1 then reSub (matchUrlAssignSub "cardFrontImage".toList) card_front_url.toList lua_script.toList
      else lua_script.toList
    let s2 :=
      if m.1 then reSub (matchUrlAssignSub "modelImage".toList) model_url.toList s1
      else s1
    let s3 := applyFactionSub determined_faction s2
    { script := String.mk s3,
      new_model_url := if m.1 then some model_url else none,
      new_card_front_url := if cf.1 then some card_front_url else none,
      errors := errs2 }

/-- Result record of `update_upgrade_card_script`. -/
structure UpgUpdateResult : Type where
  script : String
  new_card_url : Option String
  errors : List String
deriving DecidableEq, Repr

/-- Embedding of `update_upgrade_card_script(lua_script,
determined_faction, upgrade_name, object_name)` lines 424-465. -/
def update_upgrade_card_script (ex : String → Bool)
    (lua_script determined_faction upgrade_name _object_name : String) : UpgUpdateResult :=
  let u := check_image_exists ex determined_faction upgrade_name none true
  if !u.1 then
    { script := lua_script, new_card_url := none,
      errors := ["ERROR: Upgrade image not found for " ++ upgrade_name ++ " in "
                  ++ determined_faction ++ " faction (tried path: " ++ u.2 ++ ")"] }
  else
    let upgrade_url := get_github_image_url determined_faction upgrade_name none true
    let s1 := reSub (matchUrlAssignSub "cardImage".toList) upgrade_url.toList lua_script.toList
    let s2 := applyFactionSub determined_faction s1
    { script := String.mk s2, new_card_url := some upgrade_url, errors := [] }


/-- Scene forest of a save file: `nil` is an empty `ObjectStates` list and
`node guid nickname luaScript children rest` is the JSON object
`(GUID?, Nickname?, LuaScript?, ContainedObjects)` followed by its sibling
objects.  This is the list-of-objects shape of the save file with the
sibling list fused into the inductive so that every traversal is plain
structural recursion.  An `Option` field models presence of the JSON key
(a key may be present with an empty-string value, which Python treats as
falsy but present). -/
inductive SceneForest : Type where
  | nil : SceneForest
  | node (guid nickname luaScript : Option String) (children rest : SceneForest) : SceneForest
deriving DecidableEq, Repr

/-- One value of the `hierarchy` dict: parent GUID (or `None`) and the
nickname recorded at index time. -/
structure HEntry : Type where
  parent_guid : Option String
  nickname : String
deriving DecidableEq, Repr

/-- The `hierarchy` dict, as an assignment log: later assignments are
consed on the front, lookup takes the first (i.e. most recent) binding. -/
def Hierarchy : Type := List (String × HEntry)

/-- Dictionary lookup `hierarchy[guid]` / `hierarchy.get(guid)`. -/
def hfind (h : Hierarchy) (g : String) : Option HEntry := List.lookup g h

/-- Python truthiness filter applied to `parent_guid` by the indexer's
`if parent_guid:` test: `None` and the empty string both record `None`. -/
def truthyOpt : Option String → Option String
  | none => none
  | some s => if s = "" then none else some s

/-- Loop body of `build_container_hierarchy`: iterate the sibling list;
each object carrying a `GUID` is recorded, and its non-empty contained
objects are indexed at `depth + 1` unless that exceeds the cap (the
callee's `if depth > 10: return` guard, checked here at the call site). -/
def bchGo : SceneForest → Hierarchy → Option String → Nat → Hierarchy
  | SceneForest.nil, h, _, _ => h
  | SceneForest.node guid nick _ children rest, h, parent_guid, depth =>
    let h1 :=
      match guid with
      | none => h
      | some obj_guid =>
        let h' : Hierarchy :=
          (obj_guid, { parent_guid := truthyOpt parent_guid, nickname := nick.getD "" }) :: h
        match children with
        | SceneForest.nil => h'
        | SceneForest.node _ _ _ _ _ =>
          if depth + 1 > 10 then h' else bchGo children h' (some obj_guid) (depth + 1)
    bchGo rest h1 parent_guid depth

/-- Embedding of `build_container_hierarchy(object_states, hierarchy,
parent_guid, depth)` from `tts_Update_Script.py` lines 476-501. -/
def build_container_hierarchy (object_states : SceneForest) (h : Hierarchy)
    (parent_guid : Option String) (depth : Nat) : Hierarchy :=
  if depth > 10 then h else bchGo object_states h parent_guid depth

/-- Loop of `find_container_path`: walk the parent chain for at most the
given fuel (10 in the source), appending each non-empty parent nickname. -/
def fcpLoop (h : Hierarchy) : Nat → String → List String → List String
  | 0, _, path => path
  | n + 1, current_guid, path =>
    match hfind h current_guid with
    | none => path
    | some container_info =>
      match container_info.parent_guid with
      | none => path
      | some parent_guid =>
        let parent_nickname := (match hfind h parent_guid with
          | some e => e.nickname
          | none => "")
        let path1 := if parent_nickname ≠ "" then path ++ [parent_nickname] else path
        fcpLoop h n parent_guid path1

/-- Embedding of `find_container_path(hierarchy, guid)` from
`tts_Update_Script.py` lines 503-528. -/
def find_container_path (h : Hierarchy) (guid : String) : List String :=
  (fcpLoop h 10 guid []).reverse

/-- Loop of lines 571-576: the first non-`"Neutral"` classification of a
path entry, scanning root-first; `"Neutral"` if there is none. -/
def faction_scan_loop : List String → String
  | [] => "Neutral"
  | container_name :: rest =>
    let faction := determine_faction_from_container container_name
    if faction ≠ "Neutral" then faction else faction_scan_loop rest

/-- Lines 570-580 of `process_object_states`: the determined faction of
an object, from its container path with the object nickname fallback. -/
def determined_faction_for (container_path : List String) (obj_nickname : String) : String :=
  let determined_faction := faction_scan_loop container_path
  if determined_faction = "Neutral" then determine_faction_from_container obj_nickname
  else determined_faction

/-- Processing mode of the update script. -/
inductive WalkMode : Type where
  | ships : WalkMode
  | upgrades : WalkMode
  | both : WalkMode
deriving DecidableEq, Repr

/-- One row of the ship report (`ship_data` dict). -/
structure ShipData : Type where
  baseScale : PyVal
  health : PyVal
  sig : PyVal
  points : PyVal
  modelImage : PyVal
  cardFrontImage : PyVal
  name : String
  object_name : String
  object_guid : String
  container_path : String
  faction : String
  new_model_url : String
  new_card_front_url : String
deriving DecidableEq, Repr

/-- One row of the upgrade report (`upgrade_data` dict). -/
structure UpgData : Type where
  name : String
  cardImage : PyVal
  points : PyVal
  object_name : String
  object_guid : String
  container_path : String
  faction : String
  new_card_url : String
deriving DecidableEq, Repr

/-- The global accumulators of the update script: `extracted_data`,
`extracted_upgrade_data` and `error_log`. -/
structure WalkAcc : Type where
  ships : List ShipData
  upgrades : List UpgData
  errors : List String
deriving DecidableEq, Repr

/-- The `x if x else "Not Updated"` idiom used for the new-URL report
fields. -/
def orNotUpdated : Option String → String
  | none => "Not Updated"
  | some u => if u = "" then "Not Updated" else u

/-- String value of a `PyVal` (the `name` extraction always yields a
string). -/
def pyValStr : PyVal → String
  | PyVal.str s => s
  | PyVal.int n => toString n

/-- Lines 570-665 of `process_object_states`: handling of one object
that carries a non-empty script and survived the container-path
exclusion check.  Returns the (possibly rewritten) script, the updated
modified flag, and the grown accumulators. -/
def processCard (ex : String → Bool) (mode : WalkMode) (obj_guid obj_nickname : String)
    (container_path : List String) (lua_script : String) (modified : Bool)
    (acc : WalkAcc) : String × Bool × WalkAcc :=
  let determined_faction := determined_faction_for container_path obj_nickname
  if (mode = WalkMode.ships || mode = WalkMode.both) && is_ship_card_script lua_script then
    let name0 := pyValStr (extract_parameter lua_script "name")
    let ship_name :=
      if name0 = "" || name0 = "Unknown" || name0 = "Unnamed Model" then obj_nickname
      else name0
    let r := update_ship_card_script ex lua_script determined_faction ship_name obj_nickname
    let row : ShipData :=
      { baseScale := extract_parameter lua_script "baseScale"
        health := extract_parameter lua_script "health"
        sig := extract_parameter lua_script "sig"
        points := extract_parameter lua_script "points"
        modelImage := extract_parameter lua_script "modelImage"
        cardFrontImage := extract_parameter lua_script "cardFrontImage"
        name := ship_name
        object_name := obj_nickname
        object_guid := obj_guid
        container_path := String.intercalate " > " container_path
        faction := determined_faction
        new_model_url := orNotUpdated r.new_model_url
        new_card_front_url := orNotUpdated r.new_card_front_url }
    let acc' := { acc with ships := acc.ships ++ [row], errors := acc.errors ++ r.errors }
    (r.script, if r.script ≠ lua_script then true else modified, acc')
  else if (mode = WalkMode.upgrades || mode = WalkMode.both) && is_upgrade_card_script lua_script then
    let name0 := pyValStr (extract_parameter lua_script "name")
    let upgrade_name := if name0 = "" || name0 = "Unknown" then obj_nickname else name0
    let r := update_upgrade_card_script ex lua_script determined_faction upgrade_name obj_nickname
    let row : UpgData :=
      { name := upgrade_name
        cardImage := extract_parameter lua_script "cardImage"
        points := extract_parameter lua_script "points"
        object_name := obj_nickname
        object_guid := obj_guid
        container_path := String.intercalate " > " container_path
        faction := determined_faction
        new_card_url := orNotUpdated r.new_card_url }
    let acc' := { acc with upgrades := acc.upgrades ++ [row], errors := acc.errors ++ r.errors }
    (r.script, if r.script ≠ lua_script then true else modified, acc')
  else
    (lua_script, modified, acc)

/-- Loop body of `process_object_states` over the sibling list.  The
callee-entry guards (`depth > 10` and the `parent_path` exclusion check)
are applied at the recursion into `ContainedObjects`; the `parent_path`
of that call is the caller's `current_path`, which has just been checked,
so the exclusion re-check there is kept for fidelity.  Returns the
rewritten forest, the modified flag and the accumulators. -/
def posGo (ex : String → Bool) (hier : Hierarchy) :
    SceneForest → List String → Nat → Bool → WalkMode → WalkAcc →
      SceneForest × Bool × WalkAcc
  | SceneForest.nil, _, _, modified, _, acc => (SceneForest.nil, modified, acc)
  | SceneForest.node guid nick lua children rest, parent_path, depth, modified, mode, acc =>
    let obj_guid := guid.getD ""
    let obj_nickname := nick.getD "Unnamed Object"
    let current_path :=
      if obj_nickname ≠ "" then parent_path ++ [obj_nickname] else parent_path
    if should_skip_container current_path then
      let r := posGo ex hier rest parent_path depth modified mode acc
      (SceneForest.node guid nick lua children r.1, r.2.1, r.2.2)
    else
      match lua with
      | some lua_script =>
        if lua_script ≠ "" then
          let container_path := find_container_path hier obj_guid
          if should_skip_container container_path then
            let r := posGo ex hier rest parent_path depth modified mode acc
            (SceneForest.node guid nick lua children r.1, r.2.1, r.2.2)
          else
            let pc := processCard ex mode obj_guid obj_nickname container_path lua_script modified acc
            let rc :=
              match children with
              | SceneForest.nil => (children, pc.2.1, pc.2.2)
              | SceneForest.node _ _ _ _ _ =>
                if depth + 1 > 10 then (children, pc.2.1, pc.2.2)
                else if should_skip_container current_path then (children, pc.2.1, pc.2.2)
                else
                  let r := posGo ex hier children current_path (depth + 1) pc.2.1 mode pc.2.2
                  (r.1, if r.2.1 then true else pc.2.1, r.2.2)
            let rr := posGo ex hier rest parent_path depth rc.2.1 mode rc.2.2
            (SceneForest.node guid nick (some pc.1) rc.1 rr.1, rr.2.1, rr.2.2)
        else
          let rc :=
            match children with
            | SceneForest.nil => (children, modified, acc)
            | SceneForest.node _ _ _ _ _ =>
              if depth + 1 > 10 then (children, modified, acc)
              else if should_skip_container current_path then (children, modified, acc)
              else
                let r := posGo ex hier children current_path (depth + 1) modified mode acc
                (r.1, if r.2.1 then true else modified, r.2.2)
          let rr := posGo ex hier rest parent_path depth rc.2.1 mode rc.2.2
          (SceneForest.node guid nick lua rc.1 rr.1, rr.2.1, rr.2.2)
      | none =>
        let rc :=
          match children with
          | SceneForest.nil => (children, modified, acc)
          | SceneForest.node _ _ _ _ _ =>
            if depth + 1 > 10 then (children, modified, acc)
            else if should_skip_container current_path then (children, modified, acc)
            else
              let r := posGo ex hier children current_path (depth + 1) modified mode acc
              (r.1, if r.2.1 then true else modified, r.2.2)
        let rr := posGo ex hier rest parent_path depth rc.2.1 mode rc.2.2
        (SceneForest.node guid nick lua rc.1 rr.1, rr.2.1, rr.2.2)

/-- Embedding of `process_object_states(object_states,
container_hierarchy, parent_path, depth, modified, processing_mode)` from
`tts_Update_Script.py` lines 530-680 (entry guards plus the loop). -/
def process_object_states (ex : String → Bool) (hier : Hierarchy)
    (object_states : SceneForest) (parent_path : List String) (depth : Nat)
    (modified : Bool) (mode : WalkMode) (acc : WalkAcc) :
    SceneForest × Bool × WalkAcc :=
  if depth > 10 then (object_states, modified, acc)
  else if should_skip_container parent_path then (object_states, modified, acc)
  else posGo ex hier object_states parent_path depth modified mode acc

/-- Boolean string-prefix test over the underlying character lists. -/
def strHasPrefixL (p s : String) : Bool := p.toList.isPrefixOf s.toList

/-- Spec-side formulation (section 4.2 wording / claim C2) of the
walker's faction determination: the first non-Neutral classification of
the container path scanned root-first, the classification of the node's
own display name if the whole path classifies Neutral. -/
def spec_determined_faction (container_path : List String) (obj_nickname : String) : String :=
  match (container_path.map determine_faction_from_container).find?
      (fun f => f ≠ "Neutral") with
  | some f => f
  | none => determine_faction_from_container obj_nickname

/-- Minimal script body that classifies as a ship card (three of the six
indicators occur) without containing any assignment. -/
def luaShip : String := "cardFrontImage modelImage baseScale"

/-- Asset oracle of an empty repository: no image exists. -/
def exFalse : String → Bool := fun _ => false

/-- Single-branch hierarchy of 15 nested objects `g1 > g2 > ... > g15`,
each carrying a ship script, used for the depth-guard claim. -/
def chain15 : SceneForest :=
  SceneForest.node (some "g1") (some "n1") (some luaShip) (
  SceneForest.node (some "g2") (some "n2") (some luaShip) (
  SceneForest.node (some "g3") (some "n3") (some luaShip) (
  SceneForest.node (some "g4") (some "n4") (some luaShip) (
  SceneForest.node (some "g5") (some "n5") (some luaShip) (
  SceneForest.node (some "g6") (some "n6") (some luaShip) (
  SceneForest.node (some "g7") (some "n7") (some luaShip) (
  SceneForest.node (some "g8") (some "n8") (some luaShip) (
  SceneForest.node (some "g9") (some "n9") (some luaShip) (
  SceneForest.node (some "g10") (some "n10") (some luaShip) (
  SceneForest.node (some "g11") (some "n11") (some luaShip) (
  SceneForest.node (some "g12") (some "n12") (some luaShip) (
  SceneForest.node (some "g13") (some "n13") (some luaShip) (
  SceneForest.node (some "g14") (some "n14") (some luaShip) (
  SceneForest.node (some "g15") (some "n15") (some luaShip)
    SceneForest.nil SceneForest.nil)
    SceneForest.nil) SceneForest.nil) SceneForest.nil) SceneForest.nil)
    SceneForest.nil) SceneForest.nil) SceneForest.nil) SceneForest.nil)
    SceneForest.nil) SceneForest.nil) SceneForest.nil) SceneForest.nil)
    SceneForest.nil) SceneForest.nil

/-- Index built by pass 1 over the 15-deep chain. -/
def chainHier : Hierarchy := build_container_hierarchy chain15 [] none 0

/-- The tree `A(id=1) -> B(id=2, name="UCM") -> C(id=3, name="Ship1")` of
the path-resolution example; A's name is "Fleet Box". -/
def exampleTree : SceneForest :=
  SceneForest.node (some "1") (some "Fleet Box") none (
    SceneForest.node (some "2") (some "UCM") none (
      SceneForest.node (some "3") (some "Ship1") none SceneForest.nil SceneForest.nil)
      SceneForest.nil)
    SceneForest.nil

/-- Index built by pass 1 over the example tree. -/
def exampleHier : Hierarchy := build_container_hierarchy exampleTree [] none 0

/-- Subtree carrying a ship card, placed underneath an excluded
container in the branch-cut witness. -/
def excludedSubtree : SceneForest :=
  SceneForest.node (some "c1") (some "inner") (some luaShip) SceneForest.nil SceneForest.nil

/-- Canonical card-front URL for ship "Ajax" in faction UCM. -/
def cfurlAjax : String := get_github_image_url "UCM" "Ajax" (some "CardFrontImage") false

/-- Asset oracle of a repository holding exactly Ajax's card-front image. -/
def exCFOnly : String → Bool :=
  fun p => p = get_github_path "UCM" "Ajax" (some "CardFrontImage") false

/-- Script body whose card-front image URL already equals the canonical
URL but whose faction literal is stale. -/
def bodyCanon : String :=
  "local faction = \"XYZ\" cardFrontImage = \"" ++ cfurlAjax ++ "\""

/-! Theorems. -/

theorem listPfxSelf : ∀ (l : List Char), l.isPrefixOf l = true
  | [] => rfl
  | _ :: cs => by simp [List.isPrefixOf, listPfxSelf cs]

theorem listPfxAppend : ∀ (l t : List Char), l.isPrefixOf (l ++ t) = true
  | [], _ => by simp [List.isPrefixOf]
  | _ :: cs, t => by simp [List.isPrefixOf, listPfxAppend cs t]

theorem strHasPrefixL_append (p s : String) : strHasPrefixL p (p ++ s) = true := by
  simp only [strHasPrefixL, String.toList, String.data_append]
  exact listPfxAppend ..

theorem containsSub_self (l : List Char) : containsSub l l = true := by
  cases l with
  | nil => rfl
  | cons c cs => simp [containsSub, listPfxSelf]

theorem dffc_mem_valid (L : String) :
    determine_faction_from_container L ∈ VALID_FACTIONS := by
  unfold determine_faction_from_container faction_label_scan
  cases hf : VALID_FACTIONS.find?
      (fun f => containsSub (asciiLower f).toList (asciiLower L).toList) with
  | some f => simpa using List.mem_of_find?_eq_some hf
  | none => split_ifs <;> simp [VALID_FACTIONS]

/-- C8: faction classification is a pure, deterministic function of the
label, insensitive to letter case (it depends only on the lowered
label); `classify("UCM Fleet") = UCM`, `classify("random container") =
Neutral`; and classification is idempotent. -/
theorem faction_classifier_properties :
    (∀ L : String,
      determine_faction_from_container L = determine_faction_from_container L)
  ∧ determine_faction_from_container "UCM Fleet" = "UCM"
  ∧ determine_faction_from_container "random container" = "Neutral"
  ∧ (∀ L1 L2 : String, asciiLower L1 = asciiLower L2 →
      determine_faction_from_container L1 = determine_faction_from_container L2)
  ∧ (∀ L : String,
      determine_faction_from_container (determine_faction_from_container L)
        = determine_faction_from_container L) := by
  refine ⟨fun _ => rfl, by decide, by decide, ?_, ?_⟩
  · intro L1 L2 h
    unfold determine_faction_from_container
    rw [h]
  · intro L
    have hm := dffc_mem_valid L
    simp only [VALID_FACTIONS, List.mem_cons, List.not_mem_nil, or_false] at hm
    rcases hm with h | h | h | h | h | h | h <;> rw [h] <;> decide

/-- Witness for C8 at a concrete pair of labels differing only in case. -/
theorem faction_classifier_properties_witness :
    asciiLower "UCM fleet" = asciiLower "ucm FLEET"
  ∧ determine_faction_from_container "UCM fleet"
      = determine_faction_from_container "ucm FLEET" :=
  ⟨by decide, faction_classifier_properties.2.2.2.1 "UCM fleet" "ucm FLEET" (by decide)⟩

/-- C9: the extraction patterns are not anchored at an identifier
boundary, so `extract` matches inside a longer identifier: a body whose
only assignment is `nickname = "X"` yields `"X"` for the `name` field,
and a body whose only assignment is `basesig = 5` yields `"5"` for the
`sig` field. -/
theorem extract_matches_embedded_identifiers :
    extract_parameter "nickname = \"X\"" "name" = PyVal.str "X"
  ∧ extract_parameter "basesig = 5" "sig" = PyVal.str "5" := by decide

/-- C10 counterexample: the two exclusion tests disagree on a path entry
that strictly contains an ignored name, so they are not equivalent. -/
theorem exclusion_variants_differ :
    should_skip_container ["The Old 2.0 Content Box"] = false
  ∧ V2.should_skip ["The Old 2.0 Content Box"] = true := by decide

/-- C10 amended: exact membership of a path entry in the ignored list
(`should_skip_container` of `tts_Update_Script.py`) implies the V2
substring test `should_skip`, but not conversely. -/
theorem exact_skip_implies_substring_skip (container_path : List String)
    (h : should_skip_container container_path = true) :
    V2.should_skip container_path = true := by
  simp only [should_skip_container, List.any_eq_true] at h
  obtain ⟨x, hx, hc⟩ := h
  have hx2 : x ∈ IGNORED_CONTAINERS := by simpa using hc
  simp only [V2.should_skip, List.any_eq_true]
  exact ⟨x, hx, x, hx2, containsSub_self x.toList⟩

/-- Witness for the amended C10 at a path that is exactly the ignored
container name. -/
theorem exact_skip_implies_substring_skip_witness :
    should_skip_container ["Old 2.0 Content"] = true
  ∧ V2.should_skip ["Old 2.0 Content"] = true :=
  ⟨by decide, exact_skip_implies_substring_skip ["Old 2.0 Content"] (by decide)⟩

theorem faction_scan_loop_eq_find (container_path : List String) :
    faction_scan_loop container_path
      = ((container_path.map determine_faction_from_container).find?
          (fun f => f ≠ "Neutral")).getD "Neutral" := by
  induction container_path with
  | nil => rfl
  | cons c rest ih =>
    by_cases hc : determine_faction_from_container c = "Neutral"
    · simp [faction_scan_loop, hc, ih]
    · simp [faction_scan_loop, hc]

/-- C2: the faction the walker determines for a processed node equals
the spec description: the first non-Neutral classification of its
resolved container path scanned root-first, falling back to the
classification of the node's own display name (which is Neutral when
nothing matches). -/
theorem walker_faction_matches_spec (container_path : List String) (obj_nickname : String) :
    determined_faction_for container_path obj_nickname
      = spec_determined_faction container_path obj_nickname := by
  unfold determined_faction_for spec_determined_faction
  rw [faction_scan_loop_eq_find]
  cases hf : (container_path.map determine_faction_from_container).find?
      (fun f => f ≠ "Neutral") with
  | none => simp
  | some f =>
    have hne : f ≠ "Neutral" := by simpa using List.find?_some hf
    simp [hne]

theorem fcpLoop_length_le (h : Hierarchy) (n : Nat) :
    ∀ (cur : String) (path : List String),
      (fcpLoop h n cur path).length ≤ path.length + n := by
  induction n with
  | zero => intro cur path; simp [fcpLoop]
  | succ n ih =>
    intro cur path
    have hstep : ∀ (b : Prop) [Decidable b] (x : String),
        (if b then path ++ [x] else path).length ≤ path.length + 1 := by
      intro b _ x
      split <;> simp [List.length_append]
    rw [fcpLoop]
    split
    · omega
    · split
      · omega
      · exact le_trans (ih _ _)
          (le_trans (Nat.add_le_add_right (hstep _ _) n) (by omega))

theorem mem_ite_append_ne {x pn : String} {path : List String}
    (hx : x ∈ (if pn ≠ "" then path ++ [pn] else path))
    (hp : ∀ s ∈ path, s ≠ "") : x ≠ "" := by
  split at hx
  next hne =>
    rcases List.mem_append.1 hx with hx1 | hx2
    · exact hp x hx1
    · simp only [List.mem_singleton] at hx2
      subst hx2
      exact hne
  next => exact hp x hx

theorem fcpLoop_all_nonempty (h : Hierarchy) (n : Nat) :
    ∀ (cur : String) (path : List String),
      (∀ s ∈ path, s ≠ "") →
      ∀ s ∈ fcpLoop h n cur path, s ≠ "" := by
  induction n with
  | zero => intro cur path hp; simpa [fcpLoop] using hp
  | succ n ih =>
    intro cur path hp
    rw [fcpLoop]
    split
    · exact hp
    · split
      · exact hp
      · exact ih _ _ (fun x hx => mem_ite_append_ne hx hp)

/-- C3: the path resolver returns at most 10 ancestor names, all of them
non-empty (empty display names are skipped); it returns `[]` when the
start id is absent from the index or its parent id is null; and on the
example tree `A(id=1) -> B(id=2, "UCM") -> C(id=3, "Ship1")` resolving
id 3 yields `[A's name, "UCM"]`, root-first and excluding C itself. -/
theorem resolve_path_properties :
    (∀ (h : Hierarchy) (g : String), (find_container_path h g).length ≤ 10)
  ∧ (∀ (h : Hierarchy) (g : String),
      (find_container_path h g).all (fun s => s ≠ "") = true)
  ∧ find_container_path ([] : Hierarchy) "z" = []
  ∧ find_container_path [("r", ⟨none, "Root"⟩)] "r" = []
  ∧ find_container_path exampleHier "3" = ["Fleet Box", "UCM"] := by
  refine ⟨?_, ?_, by decide, by decide, by decide⟩
  · intro h g
    simpa [find_container_path] using fcpLoop_length_le h 10 g []
  · intro h g
    rw [List.all_eq_true]
    intro s hs
    rw [find_container_path, List.mem_reverse] at hs
    have hne := fcpLoop_all_nonempty h 10 g []
      (fun t ht => absurd ht (List.not_mem_nil t)) s hs
    simpa using hne

/-- C4: when a numeric field (baseScale, health, sig, points) has no
matching assignment in the script body, `extract_parameter` returns the
integer 0; when a URL field (modelImage, cardFrontImage, cardImage) or
the name field has no matching assignment, it returns `"Unknown"`. -/
theorem extract_missing_defaults (content p : String) :
    (p ∈ (["baseScale", "health", "sig", "points"] : List String) →
      searchAssign p.toList matchNumber content.toList = none →
      extract_parameter content p = PyVal.int 0)
  ∧ (p ∈ (["modelImage", "cardFrontImage", "cardImage"] : List String) →
      searchAssign p.toList matchUrl content.toList = none →
      extract_parameter content p = PyVal.str "Unknown")
  ∧ (p = "name" →
      searchAssign p.toList matchName content.toList = none →
      extract_parameter content p = PyVal.str "Unknown") := by
  refine ⟨?_, ?_, ?_⟩
  · intro hp hs
    have hk : paramKind p = some ParamKind.num := by
      fin_cases hp <;> rfl
    have hs' : searchAssign p.data matchNumber content.data = none := hs
    simp [extract_parameter, hk, hs']
  · intro hp hs
    have hk : paramKind p = some ParamKind.url := by
      fin_cases hp <;> rfl
    have hs' : searchAssign p.data matchUrl content.data = none := hs
    simp [extract_parameter, hk, hs']
  · intro hp hs
    subst hp
    have hs' : searchAssign "name".data matchName content.data = none := hs
    simp [extract_parameter, paramKind, hs']

/-- Witness for C4 on a body containing no assignment at all. -/
theorem extract_missing_defaults_witness :
    extract_parameter "zz" "health" = PyVal.int 0
  ∧ extract_parameter "zz" "cardImage" = PyVal.str "Unknown"
  ∧ extract_parameter "zz" "name" = PyVal.str "Unknown" :=
  ⟨(extract_missing_defaults "zz" "health").1 (by decide) (by decide),
   (extract_missing_defaults "zz" "cardImage").2.1 (by decide) (by decide),
   (extract_missing_defaults "zz" "name").2.2 rfl (by decide)⟩

/-- C1 counterexample: the recursion guards `if depth > 10` admit depths
0 through 10, i.e. eleven nesting levels, not ten.  On the 15-deep
chain, the eleventh level is indexed by the Containment Indexer and
visited by the Tree Walker (eleven ship rows are recorded), refuting the
claim that only the first ten levels are indexed and visited. -/
theorem depth_cap_reaches_eleventh_level :
    (hfind chainHier "g11").isSome = true
  ∧ (process_object_states exFalse chainHier chain15 [] 0 false WalkMode.both
      ⟨[], [], []⟩).2.2.ships.length = 11 := by decide

/-- C1 amended: indexing and traversal are depth-capped at 11 levels: on
the hierarchy nested 15 levels deep, exactly the first 11 levels are
indexed by the Containment Indexer and visited by the Tree Walker
(11 ship rows), levels 12-15 are silently not indexed, and both passes
are total functions, so no exception or crash occurs. -/
theorem depth_cap_is_eleven_levels :
    (hfind chainHier "g1").isSome = true
  ∧ (hfind chainHier "g2").isSome = true
  ∧ (hfind chainHier "g3").isSome = true
  ∧ (hfind chainHier "g4").isSome = true
  ∧ (hfind chainHier "g5").isSome = true
  ∧ (hfind chainHier "g6").isSome = true
  ∧ (hfind chainHier "g7").isSome = true
  ∧ (hfind chainHier "g8").isSome = true
  ∧ (hfind chainHier "g9").isSome = true
  ∧ (hfind chainHier "g10").isSome = true
  ∧ (hfind chainHier "g11").isSome = true
  ∧ hfind chainHier "g12" = none
  ∧ hfind chainHier "g13" = none
  ∧ hfind chainHier "g14" = none
  ∧ hfind chainHier "g15" = none
  ∧ (process_object_states exFalse chainHier chain15 [] 0 false WalkMode.both
      ⟨[], [], []⟩).2.2.ships.length = 11 := by decide

/-- C5: when the walker's loop reaches a node whose display name is an
entry of the exclusion list, that node is skipped entirely: its subtree
is left unchanged, nothing is recorded or rewritten in it, there is no
recursion into it, and the result is exactly that of processing the
remaining siblings. -/
theorem excluded_name_cuts_branch (ex : String → Bool) (hier : Hierarchy)
    (guid nick lua : Option String) (children rest : SceneForest)
    (parent_path : List String) (depth : Nat) (modified : Bool)
    (mode : WalkMode) (acc : WalkAcc) (n : String)
    (hn : nick = some n) (hmem : n ∈ IGNORED_CONTAINERS) :
    posGo ex hier (SceneForest.node guid nick lua children rest)
        parent_path depth modified mode acc
      = (SceneForest.node guid nick lua children
          (posGo ex hier rest parent_path depth modified mode acc).1,
         (posGo ex hier rest parent_path depth modified mode acc).2.1,
         (posGo ex hier rest parent_path depth modified mode acc).2.2) := by
  subst hn
  have hname : n = "Old 2.0 Content" := by
    simpa [IGNORED_CONTAINERS] using hmem
  subst hname
  have hskip : should_skip_container (parent_path ++ ["Old 2.0 Content"]) = true := by
    simp [should_skip_container, IGNORED_CONTAINERS]
  rw [posGo.eq_def]
  simp [hskip]

/-- Witness for C5: a concrete excluded container holding a ship-card
subtree contributes nothing — no row, no error, no rewrite. -/
theorem excluded_name_cuts_branch_witness :
    posGo exFalse [] (SceneForest.node (some "g0") (some "Old 2.0 Content") none
        excludedSubtree SceneForest.nil) [] 0 false WalkMode.both ⟨[], [], []⟩
      = (SceneForest.node (some "g0") (some "Old 2.0 Content") none
          excludedSubtree SceneForest.nil, false, ⟨[], [], []⟩) := by
  have h := excluded_name_cuts_branch exFalse [] (some "g0") (some "Old 2.0 Content")
    none excludedSubtree SceneForest.nil [] 0 false WalkMode.both ⟨[], [], []⟩
    "Old 2.0 Content" rfl (by decide)
  simpa using h

theorem noCfPfx_on_model_line (t : List Char) :
    ("ERROR: CardFrontImage not found for ".toList).isPrefixOf
      ("ERROR: ModelImage not found for ".toList ++ t) = false := rfl

theorem noCfPfx_on_skip_line (t : List Char) :
    ("ERROR: CardFrontImage not found for ".toList).isPrefixOf
      ("SKIPPING: No images found for ".toList ++ t) = false := rfl

theorem noModelPfx_on_cf_line (t : List Char) :
    ("ERROR: ModelImage not found for ".toList).isPrefixOf
      ("ERROR: CardFrontImage not found for ".toList ++ t) = false := rfl

theorem noModelPfx_on_skip_line (t : List Char) :
    ("ERROR: ModelImage not found for ".toList).isPrefixOf
      ("SKIPPING: No images found for ".toList ++ t) = false := rfl

theorem strHasPrefixL_append_chain (p a b : String) :
    strHasPrefixL p (p ++ a ++ b) = true := by
  rw [String.append_assoc]
  exact strHasPrefixL_append ..

/-- C6: for a ship card whose card-front image and model image both do
not exist in the asset repository, the script body is returned
unmodified and a skip line is logged after the two error lines; and for
each image kind that is missing, the corresponding new-URL value is
absent (so the report field reads `"Not Updated"`) and exactly one
error-log line names that missing image. -/
theorem missing_images_handling (ex : String → Bool) (lua faction name obj : String) :
    (ex (get_github_path faction name (some "CardFrontImage") false) = false →
     ex (get_github_path faction name (some "ModelImage") false) = false →
     (update_ship_card_script ex lua faction name obj).script = lua ∧
     (update_ship_card_script ex lua faction name obj).errors =
       ["ERROR: CardFrontImage not found for " ++ name ++ " in " ++ faction
          ++ " faction (tried path: "
          ++ get_github_path faction name (some "CardFrontImage") false ++ ")",
        "ERROR: ModelImage not found for " ++ name ++ " in " ++ faction
          ++ " faction (tried path: "
          ++ get_github_path faction name (some "ModelImage") false ++ ")",
        "SKIPPING: No images found for " ++ name ++ " in " ++ faction ++ " faction"])
  ∧ (ex (get_github_path faction name (some "CardFrontImage") false) = false →
     (update_ship_card_script ex lua faction name obj).new_card_front_url = none ∧
     orNotUpdated (update_ship_card_script ex lua faction name obj).new_card_front_url
       = "Not Updated" ∧
     (update_ship_card_script ex lua faction name obj).errors.countP
       (fun e => strHasPrefixL "ERROR: CardFrontImage not found for " e) = 1)
  ∧ (ex (get_github_path faction name (some "ModelImage") false) = false →
     (update_ship_card_script ex lua faction name obj).new_model_url = none ∧
     orNotUpdated (update_ship_card_script ex lua faction name obj).new_model_url
       = "Not Updated" ∧
     (update_ship_card_script ex lua faction name obj).errors.countP
       (fun e => strHasPrefixL "ERROR: ModelImage not found for " e) = 1) := by
  refine ⟨?_, ?_, ?_⟩
  · intro h1 h2
    simp [update_ship_card_script, check_image_exists, h1, h2, String.append_assoc]
  · intro h1
    cases h2 : ex (get_github_path faction name (some "ModelImage") false) with
    | false =>
      simp [update_ship_card_script, check_image_exists, h1, h2, orNotUpdated,
        String.append_assoc, List.countP_cons, strHasPrefixL, String.toList,
        String.data_append, listPfxAppend, noCfPfx_on_model_line, noCfPfx_on_skip_line]
    | true =>
      simp [update_ship_card_script, check_image_exists, h1, h2, orNotUpdated,
        String.append_assoc, List.countP_cons, strHasPrefixL, String.toList,
        String.data_append, listPfxAppend]
  · intro h2
    cases h1 : ex (get_github_path faction name (some "CardFrontImage") false) with
    | false =>
      simp [update_ship_card_script, check_image_exists, h1, h2, orNotUpdated,
        String.append_assoc, List.countP_cons, strHasPrefixL, String.toList,
        String.data_append, listPfxAppend, noModelPfx_on_cf_line, noModelPfx_on_skip_line]
    | true =>
      simp [update_ship_card_script, check_image_exists, h1, h2, orNotUpdated,
        String.append_assoc, List.countP_cons, strHasPrefixL, String.toList,
        String.data_append, listPfxAppend, noModelPfx_on_cf_line]

/-- Witness for C6 at a concrete ship with an empty asset repository. -/
theorem missing_images_handling_witness :
    (update_ship_card_script exFalse "a" "UCM" "S" "o").script = "a"
  ∧ (update_ship_card_script exFalse "a" "UCM" "S" "o").new_card_front_url = none
  ∧ orNotUpdated (update_ship_card_script exFalse "a" "UCM" "S" "o").new_model_url
      = "Not Updated"
  ∧ (update_ship_card_script exFalse "a" "UCM" "S" "o").errors.countP
      (fun e => strHasPrefixL "ERROR: ModelImage not found for " e) = 1 := by
  have h := missing_images_handling exFalse "a" "UCM" "S" "o"
  exact ⟨(h.1 rfl rfl).1, (h.2.1 rfl).1, (h.2.2 rfl).2.1, (h.2.2 rfl).2.2⟩

set_option maxRecDepth 40000 in
/-- C7 counterexample: a script body whose card-front image URL already
equals the canonical URL is nevertheless changed by the rewrite, because
its faction literal is rewritten; this refutes the claim that such a
body receives no further change. -/
theorem canonical_url_body_still_rewritten :
    (update_ship_card_script exCFOnly bodyCanon "UCM" "Ajax" "obj").script ≠ bodyCanon
  ∧ (update_ship_card_script exCFOnly (update_ship_card_script exCFOnly bodyCanon
      "UCM" "Ajax" "obj").script "UCM" "Ajax" "obj").script
    = (update_ship_card_script exCFOnly bodyCanon "UCM" "Ajax" "obj").script := by
  constructor
  · decide
  · decide
